import Mathlib

/-!
Shallow embedding of `src/signaling_server/server.py` (the `ConnectionManager`
class and the per-message dispatch of `websocket_endpoint`).

Modelling decisions, all read off the source:
* A Python `dict` is an insertion-ordered association list; updating an
  existing key keeps its position (`upsert`), `in`/`get` is `alookup`,
  `pop` is `aremove`.
* A `WebSocket` object is identified by a `Nat`.  The code dynamically
  attaches `name` and `otherName` attributes to it
  (`register_user_connection`); we model the attribute store as a heap
  `attrs : List (Nat × ConnAttrs)`.  `name = none` means the attribute was
  never set, so reading it raises `AttributeError`.  The `otherName`
  attribute is only ever read on connections obtained from
  `active_connections`, which always have both attributes, so we do not
  distinguish a missing `otherName` attribute from one set to Python `None`.
* Every service-layer coroutine is a function from the manager state and the
  acting connection to `Except PyError (state, sent messages)`:
  `Except.error` models an uncaught Python exception escaping the handler,
  and the message list records each `send_json` in order, keyed by the
  recipient connection.  (`send_message`'s `client_state` check only guards
  delivery on a closed transport; which messages the core *sends* is
  unaffected, so sends are recorded unconditionally.)
* Opaque JSON payloads (`offer`, `answer`, `candidate`) are modelled as
  `String`s; the code never inspects them.
-/

/-- Attributes the server dynamically attaches to a WebSocket connection
object: `connection.name` and `connection.otherName`.  `name = none` means
the `name` attribute was never assigned (reading it raises
`AttributeError`); `otherName = none` models Python `None`. -/
structure ConnAttrs where
  name : Option String
  otherName : Option String
deriving DecidableEq, Repr

/-- Server-to-client messages of `server.py`, one constructor per literal
`{"type": ...}` dictionary the code builds. -/
inductive Message where
  | server_login (success : Bool)
  | server_userlist (name : List (String × String))
  | server_nouser (success : Bool)
  | server_offer (offer : String) (name : String)
  | server_alreadyinroom (success : Bool) (name : String)
  | server_answer (answer : String)
  | server_candidate (candidate : String)
  | server_userwanttoleave
  | server_busyuser
  | server_userready (success : Bool) (peername : String)
  | server_pong (name : String)
  | server_error (message : String)
deriving DecidableEq, Repr

/-- Uncaught Python exceptions that can escape the handler code:
`AttributeError` (reading a never-assigned attribute), `KeyError`
(subscripting a dict with a missing key), `TypeError` (concatenating `str`
with `None`). -/
inductive PyError where
  | attributeError
  | keyError (key : String)
  | typeError
deriving DecidableEq, Repr

/-- State of the `ConnectionManager` instance together with the attribute
heap of all connection objects:
`active_connections : dict[str, WebSocket]`, `online_users : dict[str, str]`,
and for each connection id its dynamically attached attributes. -/
structure ManagerState where
  active_connections : List (String × Nat)
  attrs : List (Nat × ConnAttrs)
  online_users : List (String × String)
deriving DecidableEq, Repr

/-- A recorded `send_json`: recipient connection id and the message. -/
abbrev Send := Nat × Message

/-- Python dict update `d[k] = v`: replaces the value in place if the key is
present (keeping insertion order), otherwise appends. -/
def upsert {κ ν : Type} [DecidableEq κ] (k : κ) (v : ν) : List (κ × ν) → List (κ × ν)
  | [] => [(k, v)]
  | kv :: t => if kv.1 = k then (k, v) :: t else kv :: upsert k v t

/-- Python dict lookup `d.get(k)`. -/
def alookup {κ ν : Type} [DecidableEq κ] (k : κ) : List (κ × ν) → Option ν
  | [] => none
  | kv :: t => if kv.1 = k then some kv.2 else alookup k t

/-- Python dict removal `d.pop(k, None)` (ignoring the returned value). -/
def aremove {κ ν : Type} [DecidableEq κ] (k : κ) : List (κ × ν) → List (κ × ν)
  | [] => []
  | kv :: t => if kv.1 = k then aremove k t else kv :: aremove k t

/-- Python `==` between a `str` dict key and a `WebSocket` object: always
`False` (`str.__eq__` returns `NotImplemented` for a non-`str` and default
object equality is identity), so `active_connections.pop(connection, None)`
in `ConnectionManager.disconnect` can never match any key. -/
def pyStrEqWebSocket (_k : String) (_conn : Nat) : Bool := false

namespace ConnectionManager

/-- Reading `connection.name`; `AttributeError` if never assigned. -/
def getName (cid : Nat) (s : ManagerState) : Except PyError String :=
  match alookup cid s.attrs with
  | some a =>
    match a.name with
    | some n => Except.ok n
    | none => Except.error PyError.attributeError
  | none => Except.error PyError.attributeError

/-- Reading `conn.otherName` (only ever done on registered connections). -/
def getOtherName (cid : Nat) (s : ManagerState) : Except PyError (Option String) :=
  match alookup cid s.attrs with
  | some a => Except.ok a.otherName
  | none => Except.error PyError.attributeError

/-- Assigning `connection.otherName = v` (creates the attribute record if the
object had none). -/
def setOtherName (cid : Nat) (v : Option String) (s : ManagerState) : ManagerState :=
  match alookup cid s.attrs with
  | some a => { s with attrs := upsert cid { a with otherName := v } s.attrs }
  | none => { s with attrs := upsert cid ⟨none, v⟩ s.attrs }

/-- Source: `register_user_connection` — store the connection under the
username and set `connection.name = username`, `connection.otherName = None`. -/
def register_user_connection (username : String) (cid : Nat) (s : ManagerState) : ManagerState :=
  { s with
    active_connections := upsert username cid s.active_connections,
    attrs := upsert cid ⟨some username, none⟩ s.attrs }

/-- Source: `update_user_status` — unconditional upsert into `online_users`. -/
def update_user_status (username status : String) (s : ManagerState) : ManagerState :=
  { s with online_users := upsert username status s.online_users }

/-- Source: `get_user_status` — `online_users.get(username)`. -/
def get_user_status (username : String) (s : ManagerState) : Option String :=
  alookup username s.online_users

/-- Source: `disconnect` — `active_connections.pop(connection, None)`.  The
dict is keyed by username strings but popped with the WebSocket object, so
the pop removes the (sole) entry whose key compares `==` to the object. -/
def disconnect (cid : Nat) (s : ManagerState) : ManagerState :=
  { s with
    active_connections :=
      s.active_connections.filter (fun kv => ¬ pyStrEqWebSocket kv.1 cid) }

/-- Source: `broadcast` — send one message to every registered connection,
in registry order. -/
def broadcast (m : Message) (s : ManagerState) : List Send :=
  s.active_connections.map (fun kv => (kv.2, m))

/-- Source: `update_users_list` — broadcast the `server_userlist` snapshot
built from `online_users`. -/
def update_users_list (s : ManagerState) : List Send :=
  broadcast (Message.server_userlist s.online_users) s

/-- Source: `login_user`. -/
def login_user (username : String) (cid : Nat) (s : ManagerState) :
    ManagerState × List Send :=
  match alookup username s.active_connections with
  | some _ => (s, [(cid, Message.server_login false)])
  | none =>
    let s1 := register_user_connection username cid s
    let s2 := update_user_status username "online" s1
    (s2, (cid, Message.server_login true) :: update_users_list s2)

/-- Source: `send_offer`. -/
def send_offer (username : String) (offer : String) (cid : Nat) (s : ManagerState) :
    Except PyError (ManagerState × List Send) :=
  match alookup username s.active_connections with
  | none => Except.ok (s, [(cid, Message.server_nouser false)])
  | some conn =>
    match getOtherName conn s with
    | Except.error e => Except.error e
    | Except.ok none =>
      match getName cid s with
      | Except.error e => Except.error e
      | Except.ok senderName =>
        Except.ok (s, [(conn, Message.server_offer offer senderName)])
    | Except.ok (some _) =>
      Except.ok (s, [(cid, Message.server_alreadyinroom true username)])

/-- Source: `send_answer`. -/
def send_answer (username : String) (answer : String) (s : ManagerState) :
    ManagerState × List Send :=
  match alookup username s.active_connections with
  | some conn => (s, [(conn, Message.server_answer answer)])
  | none => (s, [])

/-- Source: `send_candidate_request`. -/
def send_candidate_request (username : String) (candidate : String) (s : ManagerState) :
    Except PyError (ManagerState × List Send) :=
  match alookup username s.active_connections with
  | none => Except.ok (s, [])
  | some conn =>
    match getOtherName conn s with
    | Except.error e => Except.error e
    | Except.ok (some _) => Except.ok (s, [(conn, Message.server_candidate candidate)])
    | Except.ok none => Except.ok (s, [])

/-- Source: `leave`.  The two `server_userwanttoleave` sends happen before
`connection.name` is read; reading the name first only differs when that
read raises, in which case the model drops the two sends with the error. -/
def leave (username : String) (cid : Nat) (s : ManagerState) :
    Except PyError (ManagerState × List Send) :=
  match alookup username s.active_connections with
  | none => Except.ok (s, [])
  | some conn =>
    match getName cid s with
    | Except.error e => Except.error e
    | Except.ok cname =>
      let s1 := update_user_status username "online" s
      let s2 := update_user_status cname "online" s1
      let s3 := setOtherName conn none s2
      let s4 := setOtherName cid none s3
      Except.ok (s4,
        (conn, Message.server_userwanttoleave) ::
        (cid, Message.server_userwanttoleave) :: update_users_list s4)

/-- Source: `busy`. -/
def busy (username : String) (s : ManagerState) : ManagerState × List Send :=
  match alookup username s.active_connections with
  | some conn => (s, [(conn, Message.server_busyuser)])
  | none => (s, [])

/-- Source: `want_to_call`. -/
def want_to_call (username : String) (cid : Nat) (s : ManagerState) :
    Except PyError (ManagerState × List Send) :=
  match alookup username s.active_connections with
  | none => Except.ok (s, [(cid, Message.server_nouser false)])
  | some conn =>
    match getOtherName conn s with
    | Except.error e => Except.error e
    | Except.ok other =>
      if other ≠ none ∧ get_user_status username s = some "busy" then
        Except.ok (s, [(cid, Message.server_alreadyinroom true username)])
      else
        Except.ok (s, [(cid, Message.server_alreadyinroom false username)])

/-- Source: `handle_ready`.  Mutation order follows the code:
`connection.otherName = username`, `conn.otherName = connection.name`, the
two status updates, then the two `server_userready` sends and the snapshot. -/
def handle_ready (username : String) (cid : Nat) (s : ManagerState) :
    Except PyError (ManagerState × List Send) :=
  match alookup username s.active_connections with
  | none => Except.ok (s, [])
  | some conn =>
    let s1 := setOtherName cid (some username) s
    match getName cid s1 with
    | Except.error e => Except.error e
    | Except.ok cname =>
      let s2 := setOtherName conn (some cname) s1
      let s3 := update_user_status username "busy" s2
      let s4 := update_user_status cname "busy" s3
      match getName conn s4 with
      | Except.error e => Except.error e
      | Except.ok connName =>
        Except.ok (s4,
          (conn, Message.server_userready true cname) ::
          (cid, Message.server_userready true connName) :: update_users_list s4)

/-- Source: `handle_quit` — pop `connection.name` from `active_connections`,
pop the *message-supplied* `username` from `online_users`, then broadcast
the snapshot. -/
def handle_quit (username : String) (cid : Nat) (s : ManagerState) :
    Except PyError (ManagerState × List Send) :=
  match getName cid s with
  | Except.error e => Except.error e
  | Except.ok cname =>
    let s1 := { s with active_connections := aremove cname s.active_connections }
    let s2 := { s1 with online_users := aremove username s1.online_users }
    Except.ok (s2, update_users_list s2)

end ConnectionManager

/-- One decoded client message envelope as seen by `websocket_endpoint`:
`type? = data.get('type')`, the other fields record whether the
corresponding key is present (`data['k']` on an absent key raises
`KeyError('k')`).  Opaque payloads are `String`s. -/
structure Envelope where
  type? : Option String
  name? : Option String
  offer? : Option String
  answer? : Option String
  candidate? : Option String
deriving DecidableEq, Repr

/-- Subscripting `data[key]`: `KeyError` when the field is absent. -/
def getField (v : Option String) (key : String) : Except PyError String :=
  match v with
  | some x => Except.ok x
  | none => Except.error (PyError.keyError key)

open ConnectionManager in
/-- One iteration of the `while True` receive loop of `websocket_endpoint`:
match on `data.get('type')` and invoke the corresponding manager coroutine.
A missing `type` falls to the default case, where
`"Unrecognized `command`: " + a_type` with `a_type = None` raises
`TypeError`.  Field accesses `data['name']` etc. happen left to right at the
call site. -/
def dispatch (e : Envelope) (cid : Nat) (s : ManagerState) :
    Except PyError (ManagerState × List Send) :=
  match e.type? with
  | none => Except.error PyError.typeError
  | some t =>
    if t = "login" then
      match getField e.name? "name" with
      | Except.error er => Except.error er
      | Except.ok n => Except.ok (login_user n cid s)
    else if t = "offer" then
      match getField e.name? "name" with
      | Except.error er => Except.error er
      | Except.ok n =>
        match getField e.offer? "offer" with
        | Except.error er => Except.error er
        | Except.ok o => send_offer n o cid s
    else if t = "answer" then
      match getField e.name? "name" with
      | Except.error er => Except.error er
      | Except.ok n =>
        match getField e.answer? "answer" with
        | Except.error er => Except.error er
        | Except.ok a => Except.ok (send_answer n a s)
    else if t = "candidate" then
      match getField e.name? "name" with
      | Except.error er => Except.error er
      | Except.ok n =>
        match getField e.candidate? "candidate" with
        | Except.error er => Except.error er
        | Except.ok c => send_candidate_request n c s
    else if t = "leave" then
      match getField e.name? "name" with
      | Except.error er => Except.error er
      | Except.ok n => leave n cid s
    else if t = "busy" then
      match getField e.name? "name" with
      | Except.error er => Except.error er
      | Except.ok n => Except.ok (busy n s)
    else if t = "want_to_call" then
      match getField e.name? "name" with
      | Except.error er => Except.error er
      | Except.ok n => want_to_call n cid s
    else if t = "ready" then
      match getField e.name? "name" with
      | Except.error er => Except.error er
      | Except.ok n => handle_ready n cid s
    else if t = "quit" then
      match getField e.name? "name" with
      | Except.error er => Except.error er
      | Except.ok n => handle_quit n cid s
    else if t = "clientping" then
      Except.ok (s, [(cid, Message.server_pong "pong")])
    else
      Except.ok (s, [(cid, Message.server_error ("Unrecognized `command`: " ++ t))])

/-- States of the server reachable from a fresh `ConnectionManager` by any
sequence of successfully dispatched client messages (from arbitrary
connections) and transport disconnects. -/
inductive Reachable : ManagerState → Prop where
  | init : Reachable ⟨[], [], []⟩
  | step (e : Envelope) (cid : Nat) {s s' : ManagerState} {sends : List Send} :
      Reachable s → dispatch e cid s = Except.ok (s', sends) → Reachable s'
  | disc (cid : Nat) {s : ManagerState} :
      Reachable s → Reachable (ConnectionManager.disconnect cid s)

/-- The spec invariant of §3: for every username with a live session,
presence `busy` implies the session's `otherName` is present and presence
`online` implies it is absent. -/
def statusPeerInvariant (s : ManagerState) : Prop :=
  ∀ u cid a, alookup u s.active_connections = some cid →
    alookup cid s.attrs = some a →
    (alookup u s.online_users = some "busy" → a.otherName ≠ none) ∧
    (alookup u s.online_users = some "online" → a.otherName = none)

/-! Association-list (Python dict) lemmas. -/

theorem alookup_upsert_self {κ ν : Type} [DecidableEq κ] (k : κ) (v : ν)
    (l : List (κ × ν)) : alookup k (upsert k v l) = some v := by
  induction l with
  | nil => simp [upsert, alookup]
  | cons kv t ih =>
    by_cases h : kv.1 = k
    · simp [upsert, h, alookup]
    · simp [upsert, h, alookup, ih]

theorem alookup_upsert_of_ne {κ ν : Type} [DecidableEq κ] {q k : κ} (v : ν)
    (l : List (κ × ν)) (h : q ≠ k) : alookup q (upsert k v l) = alookup q l := by
  induction l with
  | nil => simp [upsert, alookup, Ne.symm h]
  | cons kv t ih =>
    by_cases hk : kv.1 = k
    · subst hk
      simp [upsert, alookup, Ne.symm h]
    · simp [upsert, hk, alookup, ih]

theorem alookup_aremove_self {κ ν : Type} [DecidableEq κ] (k : κ)
    (l : List (κ × ν)) : alookup k (aremove k l) = none := by
  induction l with
  | nil => simp [aremove, alookup]
  | cons kv t ih =>
    by_cases h : kv.1 = k
    · simp [aremove, h, ih]
    · simp [aremove, h, alookup, ih]

theorem alookup_aremove_of_ne {κ ν : Type} [DecidableEq κ] {q k : κ}
    (l : List (κ × ν)) (h : q ≠ k) : alookup q (aremove k l) = alookup q l := by
  induction l with
  | nil => simp [aremove]
  | cons kv t ih =>
    by_cases hk : kv.1 = k
    · subst hk
      simp [aremove, alookup, Ne.symm h, ih]
    · simp [aremove, hk, alookup, ih]

/-! Frame lemmas for the small state mutators. -/

open ConnectionManager

theorem setOtherName_active (cid : Nat) (v : Option String) (s : ManagerState) :
    (setOtherName cid v s).active_connections = s.active_connections := by
  unfold setOtherName
  split <;> rfl

theorem setOtherName_online (cid : Nat) (v : Option String) (s : ManagerState) :
    (setOtherName cid v s).online_users = s.online_users := by
  unfold setOtherName
  split <;> rfl

theorem alookup_setOtherName_self {cid : Nat} {s : ManagerState} {a : ConnAttrs}
    (v : Option String) (h : alookup cid s.attrs = some a) :
    alookup cid (setOtherName cid v s).attrs = some ⟨a.name, v⟩ := by
  unfold setOtherName
  rw [h]
  simp [alookup_upsert_self]

theorem alookup_setOtherName_of_ne {q cid : Nat} (v : Option String)
    (s : ManagerState) (h : q ≠ cid) :
    alookup q (setOtherName cid v s).attrs = alookup q s.attrs := by
  unfold setOtherName
  split <;> simp [alookup_upsert_of_ne _ _ h]

theorem getName_setOtherName (c cid : Nat) (v : Option String) (s : ManagerState) :
    getName c (setOtherName cid v s) = getName c s := by
  by_cases h : c = cid
  · subst h
    unfold getName setOtherName
    cases hh : alookup c s.attrs with
    | none => simp [hh, alookup_upsert_self]
    | some a => simp [hh, alookup_upsert_self]
  · unfold getName
    rw [alookup_setOtherName_of_ne _ _ h]

theorem update_user_status_active (u st : String) (s : ManagerState) :
    (update_user_status u st s).active_connections = s.active_connections := rfl

theorem update_user_status_attrs (u st : String) (s : ManagerState) :
    (update_user_status u st s).attrs = s.attrs := rfl

theorem getName_update_user_status (c : Nat) (u st : String) (s : ManagerState) :
    getName c (update_user_status u st s) = getName c s := rfl

/-! Concrete states used by the counterexamples and witnesses.  They are the
states the model reaches from a fresh manager by the traces noted on each. -/

/-- Fresh `ConnectionManager` state. -/
def s0 : ManagerState := ⟨[], [], []⟩

/-- State after connection 1 performs `login("alice")` from `s0`. -/
def sAlice : ManagerState :=
  ⟨[("alice", 1)], [(1, ⟨some "alice", none⟩)], [("alice", "online")]⟩

/-- State after connection 1 logs in as alice and connection 2 as bob. -/
def sAliceBob : ManagerState :=
  ⟨[("alice", 1), ("bob", 2)],
   [(1, ⟨some "alice", none⟩), (2, ⟨some "bob", none⟩)],
   [("alice", "online"), ("bob", "online")]⟩

/-- State after alice and bob log in and connection 1 sends `ready{name:"bob"}`:
both sessions paired to each other and both busy. -/
def sPaired : ManagerState :=
  ⟨[("alice", 1), ("bob", 2)],
   [(1, ⟨some "alice", some "bob"⟩), (2, ⟨some "bob", some "alice"⟩)],
   [("alice", "busy"), ("bob", "busy")]⟩

/-- Envelope `{"type": "login", "name": n}`. -/
def envLogin (n : String) : Envelope := ⟨some "login", some n, none, none, none⟩

/-- Envelope `{"type": "ready", "name": n}`. -/
def envReady (n : String) : Envelope := ⟨some "ready", some n, none, none, none⟩

/-- State reached by: conn 1 logs in as alice, conn 1 logs in again as bob
(re-login on the same socket re-targets `connection.name`), conn 2 logs in
as carol, conn 2 sends `ready{name:"alice"}`. -/
def c2s2 : ManagerState :=
  ⟨[("alice", 1), ("bob", 1)], [(1, ⟨some "bob", none⟩)],
   [("alice", "online"), ("bob", "online")]⟩

/-- Third state of the same trace (carol logged in on connection 2). -/
def c2s3 : ManagerState :=
  ⟨[("alice", 1), ("bob", 1), ("carol", 2)],
   [(1, ⟨some "bob", none⟩), (2, ⟨some "carol", none⟩)],
   [("alice", "online"), ("bob", "online"), ("carol", "online")]⟩

/-- Final state of the same trace: username bob is `online` while its
session object (connection 1) has `otherName = "carol"`. -/
def c2s4 : ManagerState :=
  ⟨[("alice", 1), ("bob", 1), ("carol", 2)],
   [(1, ⟨some "bob", some "carol"⟩), (2, ⟨some "carol", some "alice"⟩)],
   [("alice", "busy"), ("bob", "online"), ("carol", "busy")]⟩

/-- Characterisation of a successful `connection.name` read. -/
theorem getName_eq_ok {cid : Nat} {s : ManagerState} {A : String} :
    getName cid s = Except.ok A ↔
      ∃ oth, alookup cid s.attrs = some ⟨some A, oth⟩ := by
  unfold getName
  cases h : alookup cid s.attrs with
  | none => simp
  | some a =>
    obtain ⟨na, oa⟩ := a
    cases na with
    | none => simp
    | some n => simp [ConnAttrs.mk.injEq, eq_comm]

/-- C5: a login with an already-registered name is answered with
`server_login{success:false}` and changes nothing (no registry, presence or
attribute change, no snapshot); a login with a fresh name registers the
connection with `otherName` absent, sets its presence to `online`, answers
`server_login{success:true}` and broadcasts the snapshot. -/
theorem login_conflict_rejected_and_fresh_registers
    (s : ManagerState) (cid : Nat) (N : String) :
    ((alookup N s.active_connections).isSome →
      login_user N cid s = (s, [(cid, Message.server_login false)])) ∧
    (alookup N s.active_connections = none →
      ∃ s', login_user N cid s =
          (s', (cid, Message.server_login true) :: update_users_list s') ∧
        alookup N s'.active_connections = some cid ∧
        alookup cid s'.attrs = some ⟨some N, none⟩ ∧
        alookup N s'.online_users = some "online") := by
  constructor
  · intro h
    obtain ⟨c, hc⟩ := Option.isSome_iff_exists.mp h
    simp [login_user, hc]
  · intro hh
    refine ⟨update_user_status N "online" (register_user_connection N cid s),
      ?_, ?_, ?_, ?_⟩
    · simp [login_user, hh]
    · simp [update_user_status, register_user_connection, alookup_upsert_self]
    · simp [update_user_status, register_user_connection, alookup_upsert_self]
    · simp [update_user_status, register_user_connection, alookup_upsert_self]

/-- C5 witness: with alice on connection 1, a login as alice from
connection 2 is rejected and changes nothing. -/
theorem login_conflict_rejected_and_fresh_registers_witness :
    login_user "alice" 2 sAlice = (sAlice, [(2, Message.server_login false)]) :=
  (login_conflict_rejected_and_fresh_registers sAlice 2 "alice").1 (by decide)

/-- C6: an offer to a name with no live session answers
`server_nouser{success:false}` to the caller and relays nothing; an offer
to a paired target answers `server_alreadyinroom{success:true, name}` to
the caller, not the target; otherwise the payload is relayed to the target
tagged with the sender's name.  The state is unchanged in all branches. -/
theorem offer_nouser_alreadyinroom_or_relay
    (s : ManagerState) (cid : Nat) (toName payload A : String)
    (hA : getName cid s = Except.ok A) :
    (alookup toName s.active_connections = none →
      send_offer toName payload cid s =
        Except.ok (s, [(cid, Message.server_nouser false)])) ∧
    (∀ conn a, alookup toName s.active_connections = some conn →
      alookup conn s.attrs = some a →
      (a.otherName = none →
        send_offer toName payload cid s =
          Except.ok (s, [(conn, Message.server_offer payload A)])) ∧
      (∀ p, a.otherName = some p →
        send_offer toName payload cid s =
          Except.ok (s, [(cid, Message.server_alreadyinroom true toName)]))) := by
  refine ⟨fun h => by simp [send_offer, h], fun conn a hc ha => ⟨?_, ?_⟩⟩
  · intro hn
    simp [send_offer, hc, getOtherName, ha, hn, hA]
  · intro p hp
    simp [send_offer, hc, getOtherName, ha, hp]

/-- C6 witness: in `sPaired` (alice 1 and bob 2 paired), a third logged-in
connection gets told bob is already in a room, and in `sAliceBob` a fresh
offer from alice is relayed to bob tagged with alice's name. -/
theorem offer_nouser_alreadyinroom_or_relay_witness :
    send_offer "bob" "sdp" 1 sAliceBob =
      Except.ok (sAliceBob, [(2, Message.server_offer "sdp" "alice")]) :=
  (((offer_nouser_alreadyinroom_or_relay sAliceBob 1 "bob" "sdp" "alice" rfl).2
    2 ⟨some "bob", none⟩) rfl rfl).1 rfl

/-- C7: a candidate payload is relayed to the target exactly when the target
has a live session whose `otherName` is present; in every other case nothing
is sent and nothing changes. -/
theorem candidate_relayed_iff_target_paired
    (s : ManagerState) (toName payload : String) :
    (alookup toName s.active_connections = none →
      send_candidate_request toName payload s = Except.ok (s, [])) ∧
    (∀ conn a, alookup toName s.active_connections = some conn →
      alookup conn s.attrs = some a →
      (a.otherName = none →
        send_candidate_request toName payload s = Except.ok (s, [])) ∧
      (∀ p, a.otherName = some p →
        send_candidate_request toName payload s =
          Except.ok (s, [(conn, Message.server_candidate payload)]))) := by
  refine ⟨fun h => by simp [send_candidate_request, h], fun conn a hc ha => ⟨?_, ?_⟩⟩
  · intro hn
    simp [send_candidate_request, hc, getOtherName, ha, hn]
  · intro p hp
    simp [send_candidate_request, hc, getOtherName, ha, hp]

/-- C7 witness: a candidate to unpaired bob in `sAliceBob` is dropped, and
the same message to paired bob in `sPaired` is relayed. -/
theorem candidate_relayed_iff_target_paired_witness :
    send_candidate_request "bob" "ice" sAliceBob = Except.ok (sAliceBob, []) ∧
    send_candidate_request "bob" "ice" sPaired =
      Except.ok (sPaired, [(2, Message.server_candidate "ice")]) :=
  ⟨(((candidate_relayed_iff_target_paired sAliceBob "bob" "ice").2
      2 ⟨some "bob", none⟩) rfl rfl).1 rfl,
   ((((candidate_relayed_iff_target_paired sPaired "bob" "ice").2
      2 ⟨some "bob", some "alice"⟩) rfl rfl).2 "alice") rfl⟩

/-- C8: `want_to_call` answers `server_nouser{success:false}` when the
target is absent, `server_alreadyinroom{success:true}` when the target's
`otherName` is present and its presence is `busy`, and
`server_alreadyinroom{success:false}` otherwise; the state is returned
unchanged with exactly one message, so nothing is broadcast. -/
theorem want_to_call_probe_responses
    (s : ManagerState) (cid : Nat) (toName : String) :
    (alookup toName s.active_connections = none →
      want_to_call toName cid s =
        Except.ok (s, [(cid, Message.server_nouser false)])) ∧
    (∀ conn a, alookup toName s.active_connections = some conn →
      alookup conn s.attrs = some a →
      ((a.otherName ≠ none ∧ get_user_status toName s = some "busy") →
        want_to_call toName cid s =
          Except.ok (s, [(cid, Message.server_alreadyinroom true toName)])) ∧
      (¬ (a.otherName ≠ none ∧ get_user_status toName s = some "busy") →
        want_to_call toName cid s =
          Except.ok (s, [(cid, Message.server_alreadyinroom false toName)]))) := by
  refine ⟨fun h => by simp [want_to_call, h], fun conn a hc ha => ⟨?_, ?_⟩⟩
  · intro hcond
    simp [want_to_call, hc, getOtherName, ha, hcond]
  · intro hcond
    simp only [want_to_call, hc, getOtherName, ha]
    rw [if_neg hcond]

/-- C8 witness: probing busy-paired bob in `sPaired` reports
already-in-room success, and probing free bob in `sAliceBob` reports
already-in-room failure (available). -/
theorem want_to_call_probe_responses_witness :
    want_to_call "bob" 1 sPaired =
      Except.ok (sPaired, [(1, Message.server_alreadyinroom true "bob")]) ∧
    want_to_call "bob" 1 sAliceBob =
      Except.ok (sAliceBob, [(1, Message.server_alreadyinroom false "bob")]) :=
  ⟨(((want_to_call_probe_responses sPaired 1 "bob").2
      2 ⟨some "bob", some "alice"⟩) rfl rfl).1 (by decide),
   (((want_to_call_probe_responses sAliceBob 1 "bob").2
      2 ⟨some "bob", none⟩) rfl rfl).2 (by decide)⟩

/-- C1: when the acting connection is logged in as `A` and username `B` has
a live session, `ready(B)` pairs the two sessions (`otherName` of each set
to the other's name), sets both presences to `busy`, answers
`server_userready{success:true}` with the other side's name to each of the
two sessions, and broadcasts the presence snapshot; when `B` has no live
session the operation sends nothing and changes nothing. -/
theorem ready_pairs_and_notifies
    (s : ManagerState) (cid : Nat) (A B : String)
    (hA : getName cid s = Except.ok A) :
    (alookup B s.active_connections = none →
      handle_ready B cid s = Except.ok (s, [])) ∧
    (∀ conn aB, alookup B s.active_connections = some conn →
      alookup conn s.attrs = some aB → aB.name = some B → cid ≠ conn →
      ∃ s', handle_ready B cid s =
          Except.ok (s',
            (conn, Message.server_userready true A) ::
            (cid, Message.server_userready true B) :: update_users_list s') ∧
        alookup cid s'.attrs = some ⟨some A, some B⟩ ∧
        alookup conn s'.attrs = some ⟨some B, some A⟩ ∧
        alookup A s'.online_users = some "busy" ∧
        alookup B s'.online_users = some "busy" ∧
        s'.active_connections = s.active_connections) := by
  refine ⟨fun h => by simp [handle_ready, h], ?_⟩
  intro conn aB hreg haB hnB hne
  obtain ⟨oth, hcid⟩ := getName_eq_ok.mp hA
  have hconnName : getName conn (update_user_status A "busy"
      (update_user_status B "busy"
        (setOtherName conn (some A) (setOtherName cid (some B) s)))) =
      Except.ok B := by
    rw [getName_update_user_status, getName_update_user_status,
      getName_setOtherName, getName_setOtherName]
    simp [getName, haB, hnB]
  refine ⟨update_user_status A "busy" (update_user_status B "busy"
    (setOtherName conn (some A) (setOtherName cid (some B) s))), ?_, ?_, ?_, ?_, ?_, ?_⟩
  · simp only [handle_ready, hreg, getName_setOtherName, hA, hconnName]
  · rw [update_user_status_attrs, update_user_status_attrs,
      alookup_setOtherName_of_ne _ _ (Ne.symm (fun h => hne h.symm))]
    have := alookup_setOtherName_self (s := s) (some B) hcid
    simpa using this
  · rw [update_user_status_attrs, update_user_status_attrs]
    have hc1 : alookup conn (setOtherName cid (some B) s).attrs = some aB := by
      rw [alookup_setOtherName_of_ne _ _ (fun h => hne h.symm)]
      exact haB
    have := alookup_setOtherName_self (some A) hc1
    simpa [hnB] using this
  · simp [update_user_status, alookup_upsert_self]
  · by_cases hab : B = A
    · subst hab
      simp [update_user_status, alookup_upsert_self]
    · simp [update_user_status, alookup_upsert_of_ne _ _ hab,
        alookup_upsert_self]
  · rw [update_user_status_active, update_user_status_active,
      setOtherName_active, setOtherName_active]

/-- C1 witness: in `sAliceBob`, `ready("bob")` from alice's connection
produces exactly the paired busy state and the two confirmations plus the
snapshot broadcast. -/
theorem ready_pairs_and_notifies_witness :
    ∃ s', handle_ready "bob" 1 sAliceBob =
        Except.ok (s',
          (2, Message.server_userready true "alice") ::
          (1, Message.server_userready true "bob") :: update_users_list s') ∧
      alookup 1 s'.attrs = some ⟨some "alice", some "bob"⟩ ∧
      alookup 2 s'.attrs = some ⟨some "bob", some "alice"⟩ ∧
      alookup "alice" s'.online_users = some "busy" ∧
      alookup "bob" s'.online_users = some "busy" ∧
      s'.active_connections = sAliceBob.active_connections :=
  ((ready_pairs_and_notifies sAliceBob 1 "alice" "bob" rfl).2
    2 ⟨some "bob", none⟩) rfl rfl rfl (by decide)

/-- C4 counterexample: in the paired state, alice's connection sends
`quit{name:"bob"}`.  The code pops alice's registry entry (by
`connection.name`) but pops *bob's* presence entry (by the message-supplied
name): bob, another live session, loses his presence entry while alice's
own presence entry survives. -/
theorem quit_removes_other_users_presence :
    handle_quit "bob" 1 sPaired =
      Except.ok (⟨[("bob", 2)], sPaired.attrs, [("alice", "busy")]⟩,
        [(2, Message.server_userlist [("alice", "busy")])]) ∧
    alookup "bob" sPaired.online_users = some "busy" ∧
    alookup "bob"
      (⟨[("bob", 2)], sPaired.attrs, [("alice", "busy")]⟩ :
        ManagerState).online_users = none ∧
    alookup "alice"
      (⟨[("bob", 2)], sPaired.attrs, [("alice", "busy")]⟩ :
        ManagerState).online_users = some "busy" := by
  refine ⟨?_, by decide, by decide, by decide⟩
  rfl

/-- C4 amended: `quit` removes the acting session's own registry entry (by
`connection.name`) and removes the presence entry of the name supplied in
the quit message — the acting session's own entry exactly when the message
names itself — then broadcasts a snapshot; no other registry or presence
entry changes and no `otherName` changes. -/
theorem quit_removes_actor_registry_and_named_presence
    (s : ManagerState) (cid : Nat) (u A : String)
    (hA : getName cid s = Except.ok A) :
    ∃ s', handle_quit u cid s = Except.ok (s', update_users_list s') ∧
      alookup A s'.active_connections = none ∧
      (∀ v, v ≠ A → alookup v s'.active_connections = alookup v s.active_connections) ∧
      alookup u s'.online_users = none ∧
      (∀ v, v ≠ u → alookup v s'.online_users = alookup v s.online_users) ∧
      s'.attrs = s.attrs := by
  refine ⟨⟨aremove A s.active_connections, s.attrs, aremove u s.online_users⟩,
    ?_, ?_, ?_, ?_, ?_, rfl⟩
  · simp [handle_quit, hA]
  · exact alookup_aremove_self _ _
  · exact fun v hv => alookup_aremove_of_ne _ hv
  · exact alookup_aremove_self _ _
  · exact fun v hv => alookup_aremove_of_ne _ hv

/-- C4 amended witness: alice quitting under her own name from `sPaired`
removes exactly her registry and presence entries. -/
theorem quit_removes_actor_registry_and_named_presence_witness :
    ∃ s', handle_quit "alice" 1 sPaired = Except.ok (s', update_users_list s') ∧
      alookup "alice" s'.active_connections = none ∧
      (∀ v, v ≠ "alice" →
        alookup v s'.active_connections = alookup v sPaired.active_connections) ∧
      alookup "alice" s'.online_users = none ∧
      (∀ v, v ≠ "alice" →
        alookup v s'.online_users = alookup v sPaired.online_users) ∧
      s'.attrs = sPaired.attrs :=
  quit_removes_actor_registry_and_named_presence sPaired 1 "alice" "alice" rfl

/-- C10: when sessions `A` (connection `ca`) and `B` (connection `cb`) are
ready-paired and both busy, `quit` performed by `A` naming itself leaves
`B`'s registry entry, `B`'s `otherName = A` and `B`'s busy presence intact —
no `otherName` anywhere changes and no presence entry other than `A`'s is
touched, so the survivor stays paired to the departed user. -/
theorem quit_leaves_surviving_peer_paired
    (s : ManagerState) (A B : String) (ca cb : Nat) (aA aB : ConnAttrs)
    (hAreg : alookup A s.active_connections = some ca)
    (hAattrs : alookup ca s.attrs = some aA)
    (hAname : aA.name = some A)
    (hApeer : aA.otherName = some B)
    (hAst : alookup A s.online_users = some "busy")
    (hBreg : alookup B s.active_connections = some cb)
    (hBattrs : alookup cb s.attrs = some aB)
    (hBpeer : aB.otherName = some A)
    (hBst : alookup B s.online_users = some "busy")
    (hne : B ≠ A) :
    ∃ s', handle_quit A ca s = Except.ok (s', update_users_list s') ∧
      alookup B s'.active_connections = some cb ∧
      alookup cb s'.attrs = some aB ∧
      s'.attrs = s.attrs ∧
      alookup B s'.online_users = some "busy" ∧
      (∀ u, u ≠ A → alookup u s'.online_users = alookup u s.online_users) := by
  have hgn : getName ca s = Except.ok A := by
    simp [getName, hAattrs, hAname]
  refine ⟨⟨aremove A s.active_connections, s.attrs, aremove A s.online_users⟩,
    ?_, ?_, hBattrs, rfl, ?_, ?_⟩
  · simp [handle_quit, hgn]
  · rw [alookup_aremove_of_ne _ hne]
    exact hBreg
  · rw [alookup_aremove_of_ne _ hne]
    exact hBst
  · exact fun u hu => alookup_aremove_of_ne _ hu

/-- C10 witness: bob keeps `otherName = "alice"` and stays busy after alice
quits herself out of `sPaired`. -/
theorem quit_leaves_surviving_peer_paired_witness :
    ∃ s', handle_quit "alice" 1 sPaired = Except.ok (s', update_users_list s') ∧
      alookup "bob" s'.active_connections = some 2 ∧
      alookup 2 s'.attrs = some ⟨some "bob", some "alice"⟩ ∧
      s'.attrs = sPaired.attrs ∧
      alookup "bob" s'.online_users = some "busy" ∧
      (∀ u, u ≠ "alice" →
        alookup u s'.online_users = alookup u sPaired.online_users) :=
  quit_leaves_surviving_peer_paired sPaired "alice" "bob" 1 2
    ⟨some "alice", some "bob"⟩ ⟨some "bob", some "alice"⟩
    rfl rfl rfl rfl rfl rfl rfl rfl rfl (by decide)

/-- C3: `disconnect` pops `active_connections` with the WebSocket object as
key although the dict is keyed by username strings, so it removes nothing,
touches no presence entry and broadcasts nothing — for every connection and
state it is the identity — whereas `quit` for the same logged-in session
removes its registry and presence entries and triggers the snapshot
broadcast (here to an empty room). -/
theorem disconnect_is_noop_unlike_quit :
    (∀ cid s, disconnect cid s = s) ∧
    disconnect 1 sAlice = sAlice ∧
    alookup "alice" sAlice.active_connections = some 1 ∧
    alookup "alice" sAlice.online_users = some "online" ∧
    handle_quit "alice" 1 sAlice = Except.ok (⟨[], sAlice.attrs, []⟩, []) := by
  have hid : ∀ cid s, disconnect cid s = s := by
    intro cid s
    unfold disconnect
    have : s.active_connections.filter
        (fun kv => ¬ pyStrEqWebSocket kv.1 cid) = s.active_connections := by
      simp [pyStrEqWebSocket]
    rw [this]
  exact ⟨hid, hid 1 sAlice, by decide, by decide, rfl⟩

/-- C9: the dispatcher crashes instead of answering a recoverable error on
malformed input: a known type with its required `name` field missing
raises `KeyError('name')` out of the loop, and a missing `type` raises
`TypeError` (from concatenating the error string with `None`); only an
unrecognized *string* type gets the structured `server_error` reply. -/
theorem dispatcher_crashes_on_malformed_input (s : ManagerState) (cid : Nat) :
    dispatch ⟨some "login", none, none, none, none⟩ cid s =
      Except.error (PyError.keyError "name") ∧
    dispatch ⟨some "ready", none, none, none, none⟩ cid s =
      Except.error (PyError.keyError "name") ∧
    dispatch ⟨none, none, none, none, none⟩ cid s =
      Except.error PyError.typeError ∧
    dispatch ⟨some "frobnicate", none, none, none, none⟩ cid s =
      Except.ok (s,
        [(cid, Message.server_error ("Unrecognized `command`: " ++ "frobnicate"))]) := by
  refine ⟨rfl, rfl, rfl, rfl⟩

/-- C2: the §3 status/peer invariant fails on a reachable state.  Trace:
connection 1 logs in as alice, connection 1 logs in again as bob (allowed —
`"bob"` is not a registry key — and it re-targets `connection.name`),
connection 2 logs in as carol, connection 2 sends `ready{name:"alice"}`.
The ready pairs connection 1 (alice's *and* bob's session object) with
carol, so username bob ends with presence `online` while its session's
`otherName` is `"carol"`. -/
theorem reachable_state_violates_status_peer_invariant :
    ∃ s, Reachable s ∧ ¬ statusPeerInvariant s := by
  refine ⟨c2s4, ?_, ?_⟩
  · have h0 : Reachable s0 := Reachable.init
    have h1 : Reachable sAlice := Reachable.step (envLogin "alice") 1 h0 (by rfl)
    have h2 : Reachable c2s2 := Reachable.step (envLogin "bob") 1 h1 (by rfl)
    have h3 : Reachable c2s3 := Reachable.step (envLogin "carol") 2 h2 (by rfl)
    exact Reachable.step (envReady "alice") 2 h3 (by rfl)
  · intro h
    have hb := (h "bob" 1 ⟨some "bob", some "carol"⟩ (by decide) (by decide)).2
      (by decide)
    simp at hb
